import Mathlib

/-!
Verification of the brightdata-unlocker-test repository (src/server.js and
src/test-brightdata-proxy.js) against its natural-language specification.

JavaScript strings are modelled as `List Char`, one entry per UTF-16 code
unit (every character appearing in this development lies in the Basic
Multilingual Plane, where one code unit is one scalar value). JS `length`,
`substring`, `startsWith` and `includes` all operate on code units, so
`List.length`, `take`/`drop`, prefix test and substring search over this
representation coincide with the JS semantics.
-/

namespace BrightData

/-- Model of JS `String.prototype.toLowerCase` (the bodies and literals the
program compares are ASCII, where `Char.toLower` agrees with JS). -/
def jsToLower (s : List Char) : List Char :=
  s.map Char.toLower

/-- Model of JS `String.prototype.startsWith`. -/
def jsStartsWith (s pre : List Char) : Bool :=
  pre.isPrefixOf s

/-- Model of JS `String.prototype.includes`: substring search. -/
def jsIncludes : List Char → List Char → Bool
  | [], sub => sub.isEmpty
  | h :: t, sub => sub.isPrefixOf (h :: t) || jsIncludes t sub

/-- `sub` occurs as a contiguous substring of `hay` (the specification-side
notion "contains ... as a substring"). -/
def OccursIn (sub hay : List Char) : Prop :=
  ∃ i, sub.isPrefixOf (hay.drop i) = true

/-- JS whitespace test, restricted to the ASCII whitespace the program can
meet in its prefix-sniffing position. -/
def jsWhitespace (c : Char) : Bool :=
  c = ' ' || c = '\t' || c = '\n' || c = '\r'

/-- Model of JS `String.prototype.trim` (strip whitespace at both ends). -/
def jsTrim (s : List Char) : List Char :=
  ((s.dropWhile jsWhitespace).reverse.dropWhile jsWhitespace).reverse

/-- Model of JS `s.substring(a, b)` for non-negative indices: clamps to the
string length and swaps the endpoints when given out of order. -/
def jsSubstring (s : List Char) (a b : Nat) : List Char :=
  (s.take (max a b)).drop (min a b)

/-! ## Literals compared by the classifier (src/server.js lines 154-162, 249-253) -/

def xmlLit : List Char := "<?xml".toList
def feedLit : List Char := "<feed".toList
def rssLit : List Char := "<rss".toList
def doctypeLit : List Char := "<!doctype".toList
def htmlLit : List Char := "<html".toList
def cloudflareLit : List Char := "cloudflare".toList
def justAMomentLit : List Char := "just a moment".toList
def cfBrowserLit : List Char := "cf-browser-verification".toList

/-- Default of `MAX_FULL_CONTENT_SIZE` (src/server.js line 48):
`parseInt(process.env.MAX_CONTENT_SIZE || '5242880', 10)`. -/
def defaultMaxContentSize : Nat := 5242880

/-! ## The /test diagnostic classifier (src/server.js lines 241-253) -/

/-- The diagnostic fields the `/test` handler computes from a fetched body
and status (src/server.js lines 244-253). -/
structure Diagnostics where
  success : Bool
  status : Nat
  contentLength : Nat
  contentPreview : List Char
  isXml : Bool
  hasCloudflareChallenge : Bool

/-- Embedding of the classification step of the `app.all('/test')` handler
(src/server.js lines 244-253): given the fetched body and status it fills
`status`, `contentLength`, `contentPreview = body.substring(0, 500)`,
`success = status >= 200 && status < 300`, and computes `isXml` and
`hasCloudflareChallenge` from `lower = body.toLowerCase()` — note the code
does NOT trim before the prefix test on this surface. -/
def classifyTest (body : List Char) (status : Nat) : Diagnostics :=
  let lower := jsToLower body
  { status := status
    contentLength := body.length
    contentPreview := jsSubstring body 0 500
    success := decide (200 ≤ status) && decide (status < 300)
    isXml := jsStartsWith lower xmlLit || jsStartsWith lower feedLit ||
      jsStartsWith lower rssLit
    hasCloudflareChallenge := jsIncludes lower cloudflareLit ||
      jsIncludes lower justAMomentLit || jsIncludes lower cfBrowserLit }

/-! ## The /test full-content step (src/server.js lines 256-265) -/

/-- The fields the full-content branch of `/test` sets: `content`,
`contentTruncated` (absent unless set, modelled as `false`), and the
advisory `message` (absent unless set, modelled as `Option`). -/
structure FullAttach where
  content : Option (List Char)
  contentTruncated : Bool
  message : Option (List Char)

/-- The advisory message attached on truncation (src/server.js line 263). -/
def truncationMsg (maxSize : Nat) : List Char :=
  ("Content truncated at ").toList ++ (toString maxSize).toList ++
    (" bytes. Use /fetch for raw content (up to ").toList ++
    (toString maxSize).toList ++ (" bytes).").toList

/-- Embedding of the `if (fullContent)` branch of the `/test` handler
(src/server.js lines 256-265): bodies at most `maxSize` long are attached
verbatim; longer bodies are cut to `body.substring(0, maxSize)` with
`contentTruncated = true` and an advisory message. -/
def attachFullContent (body : List Char) (maxSize : Nat) : FullAttach :=
  if body.length ≤ maxSize then
    { content := some body, contentTruncated := false, message := none }
  else
    { content := some (jsSubstring body 0 maxSize), contentTruncated := true
      message := some (truncationMsg maxSize) }

/-! ## The /fetch response shape (src/server.js lines 137-166) -/

/-- Outcome of the `/fetch` handler after `fetchContent` has produced a body
and status: a raw passthrough of an upstream error status (src/server.js
lines 139-141), a 413 "Content too large" JSON error (lines 143-150), or a
200 raw response with a sniffed content type (lines 152-166). -/
inductive FetchOut where
  | errRaw (status : Nat) (body : List Char)
  | tooLarge (contentLength : Nat) (maxAllowed : Nat)
  | raw (status : Nat) (contentType : List Char) (body : List Char)

/-- The raw body a `FetchOut` sends to the client, if any: the 413 JSON
error sends no fetched content. -/
def FetchOut.sentBody : FetchOut → Option (List Char)
  | .errRaw _ b => some b
  | .tooLarge _ _ => none
  | .raw _ _ b => some b

/-- Whether the `/fetch` outcome is the 413 "Content too large" error. -/
def FetchOut.isTooLarge : FetchOut → Bool
  | .tooLarge _ _ => true
  | _ => false

/-- Embedding of the `app.all('/fetch')` handler after `fetchContent`
returns (src/server.js lines 137-166): statuses `>= 400` are passed through
raw before any size check; then bodies longer than `maxSize` get the 413
error with `contentLength` and `maxAllowed`; otherwise the content type is
sniffed from `content.toLowerCase().trim()` and the body sent with 200. -/
def fetchRespond (content : List Char) (status : Nat) (maxSize : Nat) :
    FetchOut :=
  if status ≥ 400 then .errRaw status content
  else if content.length > maxSize then .tooLarge content.length maxSize
  else
    let lower := jsTrim (jsToLower content)
    let ct : List Char :=
      if jsStartsWith lower xmlLit || jsStartsWith lower feedLit ||
          jsStartsWith lower rssLit then
        ("application/xml; charset=utf-8").toList
      else if jsStartsWith lower doctypeLit || jsStartsWith lower htmlLit then
        ("text/html; charset=utf-8").toList
      else if jsStartsWith lower ("\x7b").toList ||
          jsStartsWith lower ("[").toList then
        ("application/json; charset=utf-8").toList
      else
        ("text/plain; charset=utf-8").toList
    .raw 200 ct content

/-! ## JS values returned by axios as `response.data` (relay/api mode)

The relay may return a raw string or a JSON envelope. `JVal` models the
JavaScript values the `fetchContent` api branch inspects: strings, numbers,
`null`/`undefined` (merged: both are falsy, both are replaced by `''` via
`?? ''`), and objects with ordered fields. -/

inductive JVal where
  | jstr (s : List Char)
  | jnum (n : Int)
  | jnull
  | jobj (fields : List (List Char × JVal))

/-- The left brace character, via its code point. -/
def lbrace : Char := Char.ofNat 123

/-- The right brace character, via its code point. -/
def rbrace : Char := Char.ofNat 125

/-- JSON string escaping for quote and backslash (sufficient for the
values this development evaluates). -/
def jsonQuote (s : List Char) : List Char :=
  '"' :: s.flatMap (fun c =>
    if c = '"' then ['\\', '"']
    else if c = '\\' then ['\\', '\\']
    else [c]) ++ ['"']

mutual

/-- Model of `JSON.stringify` on `JVal` (JS prints `null` for null,
decimal for numbers, quoted strings, `\x7b"k":v,...\x7d` for objects). -/
def stringifyVal : JVal → List Char
  | .jstr s => jsonQuote s
  | .jnum n => (toString n).toList
  | .jnull => ("null").toList
  | .jobj fields => lbrace :: stringifyFields fields ++ [rbrace]

/-- Comma-separated `"key":value` entries of an object. -/
def stringifyFields : List (List Char × JVal) → List Char
  | [] => []
  | [(k, v)] => jsonQuote k ++ ':' :: stringifyVal v
  | (k, v) :: r => jsonQuote k ++ ':' :: stringifyVal v ++ ',' :: stringifyFields r

end

/-- JS truthiness of a `JVal`: empty string, `0`, `null`/`undefined` are
falsy; every object is truthy. -/
def jsTruthy : JVal → Bool
  | .jstr s => !s.isEmpty
  | .jnum n => decide (n ≠ 0)
  | .jnull => false
  | .jobj _ => true

/-- JS property read `obj.k` on an object's field list: the first field
named `k`, or `none` (undefined) when absent. -/
def getProp (fields : List (List Char × JVal)) (k : List Char) : Option JVal :=
  match fields.find? (fun p => p.1 == k) with
  | some p => some p.2
  | none => none

/-- `obj.k` is present and truthy: the condition the `if (body.body)`
chain actually tests. -/
def propTruthy (fields : List (List Char × JVal)) (k : List Char) : Bool :=
  match getProp fields k with
  | some v => jsTruthy v
  | none => false

def bodyKey : List Char := "body".toList
def dataKey : List Char := "data".toList
def contentKey : List Char := "content".toList

/-- Model of `String(x ?? '')`: strings unchanged, numbers printed,
`null`/`undefined` become `''`, objects become `[object Object]`. -/
def jsStringCoerce : JVal → List Char
  | .jstr s => s
  | .jnum n => (toString n).toList
  | .jnull => []
  | .jobj _ => ("[object Object]").toList

/-- Embedding of the api-mode body unwrap of `fetchContent` (src/server.js
lines 72-81): a string body is returned as-is; a non-string object runs the
`if (body.body) ... else if (body.data) ... else if (body.content) ... else
JSON.stringify(body)` chain (JS truthiness tests); other non-strings pass
to `String(body ?? '')` unchanged. -/
def apiEffectiveText (data : JVal) : List Char :=
  match data with
  | .jstr s => s
  | .jobj fields =>
    if propTruthy fields bodyKey then
      jsStringCoerce ((getProp fields bodyKey).getD .jnull)
    else if propTruthy fields dataKey then
      jsStringCoerce ((getProp fields dataKey).getD .jnull)
    else if propTruthy fields contentKey then
      jsStringCoerce ((getProp fields contentKey).getD .jnull)
    else stringifyVal (.jobj fields)
  | v => jsStringCoerce v

/-- The claim's reading of the unwrap, written from the specification's
words: "the first present of fields `body`, `data`, `content` is unwrapped
as the effective text; otherwise the whole JSON is stringified" — presence
alone decides, not truthiness. Kept separate from `apiEffectiveText` to be
compared against it. -/
def specEffectiveText (data : JVal) : List Char :=
  match data with
  | .jstr s => s
  | .jobj fields =>
    match getProp fields bodyKey with
    | some v => jsStringCoerce v
    | none =>
      match getProp fields dataKey with
      | some v => jsStringCoerce v
      | none =>
        match getProp fields contentKey with
        | some v => jsStringCoerce v
        | none => stringifyVal (.jobj fields)
  | v => jsStringCoerce v

/-! ## Native/proxy-mode fetchContent and the TLS-verification toggle
(src/server.js lines 83-111; the same shape appears in
`testUnlockerNative`, src/test-brightdata-proxy.js lines 92-119)

The process-wide `process.env.NODE_TLS_REJECT_UNAUTHORIZED` is modelled as
an `Option (List Char)` (`none` = the variable is unset / deleted). The one
outbound `axios.get` either resolves with a response (any status — the
handler passes `validateStatus: () => true`, so no HTTP status makes it
throw) or rejects with a transport error (timeout, DNS or proxy failure),
which in JS propagates as an exception out of the `await`. The call's
outcome is a parameter of the embedding. -/

/-- A JS exception thrown by the transport layer. -/
structure JsError where
  message : List Char

/-- An axios response: the parsed `data` value and the HTTP status. -/
structure AxiosResp where
  data : JVal
  status : Nat

/-- The pair `{ content, status }` that `fetchContent` resolves with. -/
structure FetchResult where
  content : List Char
  status : Nat

/-- Embedding of the native branch of `fetchContent` (src/server.js lines
83-111) as a transformer of the TLS-toggle environment variable: it saves
`originalReject`, sets the variable to `'0'`, performs the one outbound
call, and — only on the resolve path — restores the saved value (setting
it back when it was defined, deleting it otherwise). A rejection
propagates out of the function before the restore statements run. The
resolved body is `response.data` if a string, else `JSON.stringify` of it. -/
def fetchContentNative (env : Option (List Char))
    (call : Except JsError AxiosResp) :
    Option (List Char) × Except JsError FetchResult :=
  let originalReject := env
  let envDuring : Option (List Char) := some ['0']
  match call with
  | .error e => (envDuring, .error e)
  | .ok resp =>
    let envAfter := originalReject
    let body : List Char :=
      match resp.data with
      | .jstr s => s
      | d => stringifyVal d
    (envAfter, .ok { content := body, status := resp.status })

/-! ## /test URL parameter resolution (src/server.js line 180) -/

/-- Model of JS `a || b` where `a` is a possibly-absent string parameter:
absent (`undefined`) and the empty string are falsy. -/
def jsOrStr (a : Option (List Char)) (b : List Char) : List Char :=
  match a with
  | some s => if s.isEmpty then b else s
  | none => b

/-- The hard-coded default URL of the `/test` handler (src/server.js
line 180). -/
def defaultTestUrl : List Char :=
  ("https://forum.opencart.com/feed/forum/2").toList

/-- Embedding of `const url = req.query.url || req.body.url ||
'https://forum.opencart.com/feed/forum/2'` (src/server.js line 180). -/
def resolveTestUrl (queryUrl bodyUrl : Option (List Char)) : List Char :=
  jsOrStr queryUrl (jsOrStr bodyUrl defaultTestUrl)

/-- The guard `if (!url)` of the 400 "Missing URL parameter" branch
(src/server.js lines 184-192): fires exactly when the resolved url is
falsy, i.e. empty. -/
def missingUrlGuardFires (queryUrl bodyUrl : Option (List Char)) : Bool :=
  (resolveTestUrl queryUrl bodyUrl).isEmpty

/-- The body of the specification's XML/RSS scenario:
`"<?xml version=\"1.0\"?><rss></rss>"`. -/
def xmlRssBody : List Char :=
  ("<?xml version=\"1.0\"?><rss></rss>").toList

/-! ## Helper lemmas -/

theorem jsSubstring_zero (s : List Char) (b : Nat) :
    jsSubstring s 0 b = s.take b := by
  simp [jsSubstring]

/-- If `sub` is a prefix of some suffix of `hay`, the JS `includes` search
finds it. -/
theorem jsIncludes_of_occursIn (hay sub : List Char) (h : OccursIn sub hay) :
    jsIncludes hay sub = true := by
  obtain ⟨i, hi⟩ := h
  induction hay generalizing i with
  | nil =>
    simp only [List.drop_nil] at hi
    cases sub with
    | nil => simp [jsIncludes]
    | cons c cs => simp [List.isPrefixOf] at hi
  | cons h t ih =>
    cases i with
    | zero =>
      simp only [List.drop_zero] at hi
      simp [jsIncludes, hi]
    | succ j =>
      simp only [List.drop_succ_cons] at hi
      simp [jsIncludes, ih j hi]

/-! ## Claim C1: the TLS-verification toggle -/

/-- Claim C1, counterexample: the claim says the toggle equals its prior
value "after fetch returns or throws". On the throw path it does not: with
the variable initially unset and the outbound call rejecting (e.g. a
timeout), `fetchContentNative` leaves `NODE_TLS_REJECT_UNAUTHORIZED` set to
`'0'` — the restore statements sit after the `await` with no
`try`/`finally`, so they never run. -/
theorem tls_toggle_leak_on_throw :
    (fetchContentNative none (.error ⟨("timeout of 120000ms exceeded").toList⟩)).1
      ≠ none := by
  simp [fetchContentNative]

/-- Claim C1, amended: in proxy/native mode the TLS-verification toggle is
restored to its prior value whenever the outbound call resolves — which,
under `validateStatus: () => true`, it does for every HTTP status code —
but when the transport call rejects (throws), the toggle is left at `'0'`
and is not restored. This theorem proves the resolve half: for every prior
environment value and every resolved response, the final environment equals
the prior one. -/
theorem tls_toggle_restored_on_resolve (env : Option (List Char))
    (resp : AxiosResp) :
    (fetchContentNative env (.ok resp)).1 = env := by
  simp [fetchContentNative]

/-! ## Claim C2: the feed-like prefix test on /test -/

/-- Claim C2, counterexample: the claim says the `/test` classification
performs the prefix comparison after trimming. It does not: for the body
`" <?xml a"` (one leading space), the trimmed lowercased body starts with
`<?xml`, yet `/test` reports `isXml = false`, because line 249 of
src/server.js lowercases without trimming (only `/fetch`'s sniff trims). -/
theorem test_isXml_untrimmed_cex :
    jsStartsWith (jsTrim (jsToLower ((" <?xml a").toList))) xmlLit = true ∧
      (classifyTest ((" <?xml a").toList) 200).isXml = false := by
  constructor
  · decide
  · decide

/-- Claim C2, amended: on `/test` the prefix comparison is performed on the
lowercased body WITHOUT trimming; every body that starts (case-insensitively,
with no leading whitespace) with `<?xml`, `<feed` or `<rss` is classified
`isXml = true`, and the body `"Hello world"` is classified `false`. -/
theorem test_isXml_prefixes :
    (∀ (body : List Char) (status : Nat),
      (jsStartsWith (jsToLower body) xmlLit = true ∨
       jsStartsWith (jsToLower body) feedLit = true ∨
       jsStartsWith (jsToLower body) rssLit = true) →
      (classifyTest body status).isXml = true) ∧
    (classifyTest (("Hello world").toList) 200).isXml = false := by
  constructor
  · intro body status h
    simp only [classifyTest]
    rcases h with h | h | h <;> simp [h]
  · decide

/-- Witness for `test_isXml_prefixes`: the XML/RSS scenario body starts
with `<?xml`, and the theorem yields `isXml = true` for it. -/
theorem test_isXml_prefixes_witness :
    (classifyTest xmlRssBody 200).isXml = true :=
  test_isXml_prefixes.1 xmlRssBody 200 (Or.inl (by decide))

/-! ## Claim C6: the XML/RSS scenario -/

/-- Claim C6, counterexample: the scenario claims `contentLength = 33` for
the body `"<?xml version=\"1.0\"?><rss></rss>"`, but that string has 32
characters, and the classifier reports its exact length. -/
theorem xml_scenario_length_cex :
    (classifyTest xmlRssBody 200).contentLength ≠ 33 := by
  decide

/-- Claim C6, amended: classifying the body
`"<?xml version=\"1.0\"?><rss></rss>"` with status 200 yields
`success = true`, `isXml = true`, `hasCloudflareChallenge = false`, and
`contentLength = 32` (the actual character count of the body). -/
theorem xml_scenario :
    (classifyTest xmlRssBody 200).success = true ∧
      (classifyTest xmlRssBody 200).isXml = true ∧
      (classifyTest xmlRssBody 200).hasCloudflareChallenge = false ∧
      (classifyTest xmlRssBody 200).contentLength = 32 := by
  refine ⟨by decide, by decide, by decide, by decide⟩

/-! ## Claim C9: the 500-character preview -/

/-- Claim C9: for every body, the `contentPreview` computed by the `/test`
classifier is `body.substring(0, 500)`, i.e. the first 500 characters of
the body, and its length is `min 500 (body.length)` — lengths counted in
UTF-16 code units (the unit of the `List Char` representation here), not
bytes. -/
theorem content_preview_first_500 (body : List Char) (status : Nat) :
    (classifyTest body status).contentPreview = body.take 500 ∧
      ((classifyTest body status).contentPreview).length =
        min 500 body.length := by
  constructor
  · simp [classifyTest, jsSubstring]
  · simp [classifyTest, jsSubstring, List.length_take]

/-! ## Claim C10: the missing-url guard on /test -/

/-- Claim C10: the 400 "Missing URL parameter" branch of `/test` is
unreachable: `url` defaults to a fixed non-empty URL before the `if (!url)`
check, so for every combination of absent (or even empty) query and body
`url` parameters the guard never fires. -/
theorem missing_url_guard_unreachable (queryUrl bodyUrl : Option (List Char)) :
    missingUrlGuardFires queryUrl bodyUrl = false := by
  simp only [missingUrlGuardFires, resolveTestUrl, jsOrStr]
  cases queryUrl with
  | none =>
    cases bodyUrl with
    | none => decide
    | some s =>
      by_cases h : s.isEmpty
      · simp [h]; decide
      · simp [h]
  | some q =>
    by_cases hq : q.isEmpty
    · simp only [hq, if_true]
      cases bodyUrl with
      | none => decide
      | some s =>
        by_cases h : s.isEmpty
        · simp [h]; decide
        · simp [h]
    · simp [hq]

/-! ## Claim C3: oversized bodies on /fetch -/

/-- Claim C3, counterexample: the claim says the 413 rejection holds "for
every upstream status code". It does not: a 6,000,000-character body
fetched with upstream status 404 is passed through raw by the
`if (status >= 400)` branch, which runs before the size check, so the
response is not the 413 error. -/
theorem fetch_oversized_passthrough_cex :
    (List.replicate 6000000 'a').length > defaultMaxContentSize ∧
      (fetchRespond (List.replicate 6000000 'a') 404
          defaultMaxContentSize).isTooLarge = false := by
  constructor
  · simp only [List.length_replicate, defaultMaxContentSize]
    decide
  · rfl

/-- Claim C3, amended: on `/fetch`, for upstream statuses below 400, every
body longer than the configured maximum is rejected with the 413 JSON error
carrying `contentLength` and `maxAllowed`; and the handler never truncates:
whatever body it does send (raw 200 or the raw `>= 400` passthrough, of any
length) is the fetched content verbatim. -/
theorem fetch_oversized_rejected :
    (∀ (content : List Char) (status maxSize : Nat), status < 400 →
      content.length > maxSize →
      fetchRespond content status maxSize =
        .tooLarge content.length maxSize) ∧
    (∀ (content : List Char) (status maxSize : Nat) (b : List Char),
      (fetchRespond content status maxSize).sentBody = some b →
      b = content) := by
  constructor
  · intro content status maxSize hlt hbig
    simp only [fetchRespond]
    rw [if_neg (by omega), if_pos hbig]
  · intro content status maxSize b h
    simp only [fetchRespond] at h
    split at h
    · simpa [FetchOut.sentBody] using h.symm
    · split at h
      · simp [FetchOut.sentBody] at h
      · simpa [FetchOut.sentBody] using h.symm

/-- Witness for `fetch_oversized_rejected`: a 3-character body over a
2-character configured maximum, status 200, yields the 413-equivalent
outcome with both fields; and the raw 200 path sends the body verbatim. -/
theorem fetch_oversized_rejected_witness :
    fetchRespond (("abc").toList) 200 2 = .tooLarge 3 2 ∧
      (("x").toList = ("x").toList) :=
  ⟨fetch_oversized_rejected.1 (("abc").toList) 200 2 (by decide) (by decide),
   fetch_oversized_rejected.2 (("x").toList) 200 5 (("x").toList) (by decide)⟩

/-! ## Claim C4: blocked-signature detection -/

/-- Claim C4: for every body containing `cloudflare`, `just a moment` or
`cf-browser-verification` as a case-insensitive substring anywhere (the
hypothesis says the lowercase literal occurs in the lowercased body), the
`/test` classifier reports `hasCloudflareChallenge = true`; the statement
imposes no condition on the feed-like prefix test, so the scan is
independent of it. -/
theorem cloudflare_substring_detected (body : List Char) (status : Nat)
    (h : OccursIn cloudflareLit (jsToLower body) ∨
         OccursIn justAMomentLit (jsToLower body) ∨
         OccursIn cfBrowserLit (jsToLower body)) :
    (classifyTest body status).hasCloudflareChallenge = true := by
  simp only [classifyTest]
  rcases h with h | h | h <;>
    simp [jsIncludes_of_occursIn _ _ h]

/-- Witness for `cloudflare_substring_detected`: a body that is both
feed-like and contains `Just a moment` is still reported as blocked (and is
also reported feed-like, showing the two tests are independent). -/
theorem cloudflare_substring_detected_witness :
    (classifyTest (("<rss>Just a moment...</rss>").toList) 200).isXml = true ∧
      (classifyTest (("<rss>Just a moment...</rss>").toList)
          200).hasCloudflareChallenge = true :=
  ⟨by decide,
   cloudflare_substring_detected (("<rss>Just a moment...</rss>").toList) 200
     (Or.inr (Or.inl ⟨5, by decide⟩))⟩

/-! ## Claim C5: the relay/api JSON-envelope unwrap -/

/-- Claim C5, counterexample: the claim says the first PRESENT of the
fields `body`, `data`, `content` becomes the effective text. The code tests
JS truthiness, not presence: for the envelope with the single field
`body: ""` (present but falsy), the code stringifies the whole object while
the claim's reading returns the empty string. -/
theorem api_unwrap_presence_cex :
    apiEffectiveText (.jobj [(bodyKey, .jstr [])]) ≠
      specEffectiveText (.jobj [(bodyKey, .jstr [])]) := by
  decide

/-- Claim C5, amended: in relay/api mode, when the upstream body is a JSON
object, the effective text is the first present AND TRUTHY (per JS
truthiness, so e.g. an empty string field is skipped) of `body`, `data`,
`content` in that priority order, coerced to a string; if none of the three
is present and truthy the whole object is JSON-stringified. -/
theorem api_unwrap_truthy_priority (fields : List (List Char × JVal)) :
    (∀ v, getProp fields bodyKey = some v → jsTruthy v = true →
      apiEffectiveText (.jobj fields) = jsStringCoerce v) ∧
    (propTruthy fields bodyKey = false →
      ∀ v, getProp fields dataKey = some v → jsTruthy v = true →
      apiEffectiveText (.jobj fields) = jsStringCoerce v) ∧
    (propTruthy fields bodyKey = false →
      propTruthy fields dataKey = false →
      ∀ v, getProp fields contentKey = some v → jsTruthy v = true →
      apiEffectiveText (.jobj fields) = jsStringCoerce v) ∧
    (propTruthy fields bodyKey = false →
      propTruthy fields dataKey = false →
      propTruthy fields contentKey = false →
      apiEffectiveText (.jobj fields) = stringifyVal (.jobj fields)) := by
  refine ⟨?_, ?_, ?_, ?_⟩
  · intro v hget htr
    have hb : propTruthy fields bodyKey = true := by
      simp [propTruthy, hget, htr]
    simp [apiEffectiveText, hb, hget]
  · intro hb v hget htr
    have hd : propTruthy fields dataKey = true := by
      simp [propTruthy, hget, htr]
    simp [apiEffectiveText, hb, hd, hget]
  · intro hb hd v hget htr
    have hc : propTruthy fields contentKey = true := by
      simp [propTruthy, hget, htr]
    simp [apiEffectiveText, hb, hd, hc, hget]
  · intro hb hd hc
    simp [apiEffectiveText, hb, hd, hc]

/-- Witness for `api_unwrap_truthy_priority`: an envelope whose `body`
field holds the non-empty string `"hi"` unwraps to that string. -/
theorem api_unwrap_truthy_priority_witness :
    apiEffectiveText (.jobj [(bodyKey, .jstr (("hi").toList))]) =
      jsStringCoerce (.jstr (("hi").toList)) :=
  (api_unwrap_truthy_priority [(bodyKey, .jstr (("hi").toList))]).1
    (.jstr (("hi").toList)) rfl rfl

/-! ## Claim C7: full-content mode on /test -/

/-- Claim C7: when full-content mode is requested on `/test`, a body longer
than the configured maximum is attached as exactly its first
`maxSize`-many units, with `contentTruncated = true` and an advisory
message; a body of length at most the maximum is attached verbatim with no
truncation flag. (`defaultMaxContentSize = 5242880` pins the default.) -/
theorem test_full_content_attach (body : List Char) (maxSize : Nat) :
    (body.length > maxSize →
      (attachFullContent body maxSize).content = some (body.take maxSize) ∧
      (body.take maxSize).length = maxSize ∧
      (attachFullContent body maxSize).contentTruncated = true ∧
      (attachFullContent body maxSize).message =
        some (truncationMsg maxSize)) ∧
    (body.length ≤ maxSize →
      (attachFullContent body maxSize).content = some body ∧
      (attachFullContent body maxSize).contentTruncated = false) ∧
    defaultMaxContentSize = 5242880 := by
  refine ⟨?_, ?_, rfl⟩
  · intro h
    have hn : ¬ body.length ≤ maxSize := by omega
    refine ⟨?_, ?_, ?_, ?_⟩ <;>
      simp [attachFullContent, hn, jsSubstring, List.length_take]
    omega
  · intro h
    constructor <;> simp [attachFullContent, h]

/-- Witness for `test_full_content_attach`: a 3-character body over a
2-character maximum is cut to its first 2 characters with the flag set; a
2-character body is attached verbatim with the flag unset. -/
theorem test_full_content_attach_witness :
    (attachFullContent (("abc").toList) 2).content = some (("ab").toList) ∧
      (attachFullContent (("ab").toList) 2).contentTruncated = false :=
  ⟨((test_full_content_attach (("abc").toList) 2).1 (by decide)).1,
   ((test_full_content_attach (("ab").toList) 2).2.1 (by decide)).2⟩

/-! ## Claim C8: /fetch and /test?full=true round-trip -/

/-- Claim C8: for the same fetched body and status, whenever the body
length is at most the truncation threshold, the raw content `/fetch` sends
and the `content` field `/test` attaches with `full=true` are both exactly
the fetched body — hence identical — for every upstream status code. -/
theorem fetch_test_roundtrip (content : List Char) (status maxSize : Nat)
    (h : content.length ≤ maxSize) :
    (fetchRespond content status maxSize).sentBody = some content ∧
      (attachFullContent content maxSize).content = some content := by
  constructor
  · simp only [fetchRespond]
    split
    · rfl
    · rw [if_neg (by omega)]
      rfl
  · simp [attachFullContent, h]

/-- Witness for `fetch_test_roundtrip`: a 2-character body under a
5-character threshold, status 200: both surfaces carry the body verbatim. -/
theorem fetch_test_roundtrip_witness :
    (fetchRespond (("ok").toList) 200 5).sentBody = some (("ok").toList) ∧
      (attachFullContent (("ok").toList) 5).content = some (("ok").toList) :=
  fetch_test_roundtrip (("ok").toList) 200 5 (by decide)

end BrightData
